import Mathlib

/-!
Shallow embedding of the message-dispatch facade
(src/message_services.py, src/message_handler.py).

Exceptions in the source (MessagedException and its subclasses
MessageServiceException, MessageValidation, MessageHandlerException,
MessageException) all carry only a message string, and the facade
erases the exception type when converting; they are modelled here as
plain String payloads.

Python values that may or may not be strings (builder batches can hold
anything; the type asserts check at runtime) are modelled by the PyVal
sum type.
-/

/-- Model of a dynamically typed Python value, as far as the type
asserts in the source distinguish them. -/
inductive PyVal where
  | str (s : String)
  | int (n : Int)
  | none
  | dict
  | list
  deriving DecidableEq, Repr

def PyVal.isStr : PyVal → Bool
  | .str _ => true
  | _ => false

def PyVal.getStr : PyVal → String
  | .str s => s
  | _ => ""

/-- Fatal errors that abort a call: a failed Python assert, or a raised
MessageHandlerException. -/
inductive FatalError where
  | assertionError
  | messageHandlerException (message : String)
  deriving DecidableEq, Repr

/-- Model of the message.replace(marker, blank-string) calls in the
transform overrides: removing every occurrence of a single character. -/
def stripChar (c : Char) (s : String) : String :=
  ⟨s.data.filter (fun a => a ≠ c)⟩

/-- Model of the Python containment test (single-character needle in
message) used by the validate overrides. -/
def containsChar (c : Char) (s : String) : Bool :=
  s.data.contains c

/-- MessageServiceBase with its overridable methods as fields; the
default field values are the base-class defaults (validate accepts
everything, transform is the identity). The abstract delivery
primitive Python calls self.dot-send is the field sendPrim. -/
structure MessageServiceBase where
  sendPrim : List String → List (String × Option String)
  mTransform : String → String := fun message => message
  mValidate : String → Option String := fun _ => Option.none

/-- MessageServiceBase.send: validate each message, keep the
order-preserving partition, transform and deliver the accepted ones,
zip originals with delivery outcomes, then append the rejected
messages unchanged with their validation errors. -/
def MessageServiceBase.send (svc : MessageServiceBase) (messages : List String) :
    List (String × String × Option String) :=
  let validated_messages := messages.map (fun x => (x, svc.mValidate x))
  let appropriate_messages :=
    (validated_messages.filter (fun p => p.2.isNone)).map (fun p => p.1)
  let send_result := svc.sendPrim (appropriate_messages.map (fun mess => svc.mTransform mess))
  let result := (appropriate_messages.zip send_result).map (fun p => (p.1, p.2.1, p.2.2))
  result ++ (validated_messages.filter (fun p => p.2.isSome)).map (fun p => (p.1, p.1, p.2))

/-- The assert at the top of MessageServiceBase.send: every element of
the batch must be a string, otherwise the whole call aborts with an
AssertionError; when it holds the batch is processed as strings. -/
def MessageServiceBase.sendChecked (svc : MessageServiceBase) (messages : List PyVal) :
    Except FatalError (List (String × String × Option String)) :=
  if (messages.filter (fun m => !m.isStr)).length = 0 then
    Except.ok (svc.send (messages.map PyVal.getStr))
  else
    Except.error FatalError.assertionError

/-- TelegramMessageService: no validate override, transform strips the
bullet marker, delivery stub succeeds on every message. -/
def TelegramMessageService : MessageServiceBase where
  sendPrim := fun messages => messages.map (fun x => (x, Option.none))
  mTransform := fun message => stripChar '*' message

/-- WhatsAppMessageService: transform strips exclamation marks,
validate rejects messages containing a bullet sign. -/
def WhatsAppMessageService : MessageServiceBase where
  sendPrim := fun messages => messages.map (fun x => (x, Option.none))
  mTransform := fun message => stripChar '!' message
  mValidate := fun message =>
    if containsChar '*' message then some "Bullets in the text are not allowed" else Option.none

/-- PushMessageService: transform strips question marks, validate
rejects messages containing a semicolon sign. -/
def PushMessageService : MessageServiceBase where
  sendPrim := fun messages => messages.map (fun x => (x, Option.none))
  mTransform := fun message => stripChar '?' message
  mValidate := fun message =>
    if containsChar ';' message then some "Semicolumn in the text are not allowed" else Option.none

def SERVICE_TELEGRAM : String := "telegram"
def SERVICE_WHATSAPP : String := "whatsapp"
def SERVICE_PUSH : String := "push"

/-- What a factory hands back: either a genuine service, or an object
that is not a MessageServiceBase (the defensive issubclass check in
the facade rejects the latter). -/
inductive FactoryCreated where
  | service (svc : MessageServiceBase)
  | invalid

/-- MessageServiceFactory.create_service: map a channel id to the
concrete service, raise MessageHandlerException otherwise. -/
def MessageServiceFactory.create_service (service_type : String) :
    Except FatalError FactoryCreated :=
  if service_type = SERVICE_TELEGRAM then Except.ok (FactoryCreated.service TelegramMessageService)
  else if service_type = SERVICE_WHATSAPP then Except.ok (FactoryCreated.service WhatsAppMessageService)
  else if service_type = SERVICE_PUSH then Except.ok (FactoryCreated.service PushMessageService)
  else Except.error (FatalError.messageHandlerException "Wrong type of service is given")

/-- MessageHandlerRequest: builder state, a batch of (dynamically
typed) messages and a service type string. -/
structure MessageHandlerRequest where
  _batch : List PyVal := []
  _type : String := ""

def MessageHandlerRequest.new : MessageHandlerRequest := {}

def MessageHandlerRequest.get_list (r : MessageHandlerRequest) : List PyVal := r._batch

def MessageHandlerRequest.get_type (r : MessageHandlerRequest) : String := r._type

/-- set_service_type asserts that the given value is a string before
storing it. -/
def MessageHandlerRequest.set_service_type (r : MessageHandlerRequest) (service_type : PyVal) :
    Except FatalError MessageHandlerRequest :=
  match service_type with
  | .str s => Except.ok { r with _type := s }
  | _ => Except.error FatalError.assertionError

/-- append_message appends without any type check. -/
def MessageHandlerRequest.append_message (r : MessageHandlerRequest) (message : PyVal) :
    MessageHandlerRequest :=
  { r with _batch := r._batch ++ [message] }

def MessageHandlerRequest.append_messages (r : MessageHandlerRequest) (messages : List PyVal) :
    MessageHandlerRequest :=
  { r with _batch := r._batch ++ messages }

def MessageHandlerRequest.clear_messages (r : MessageHandlerRequest) : MessageHandlerRequest :=
  { r with _batch := [] }

/-- MessageStatus: original message, transformed message, optional
error (as its message string). -/
structure MessageStatus where
  _original_message : String
  _transformed_message : String
  _error : Option String
  deriving DecidableEq, Repr

def MessageStatus.get_original_message (s : MessageStatus) : String := s._original_message

def MessageStatus.get_transformed_message (s : MessageStatus) : String := s._transformed_message

def MessageStatus.get_error (s : MessageStatus) : Option String := s._error

def MessageStatus.is_sent (s : MessageStatus) : Bool := s._error.isNone

/-- MessageHandlerResponse: holds the request, the status list, and
the count of sent statuses computed in the constructor. -/
structure MessageHandlerResponse where
  _request : MessageHandlerRequest
  _message_statuses : List MessageStatus
  _messages_are_sent : Nat

/-- The MessageHandlerResponse constructor computes the sent count
from the statuses. -/
def MessageHandlerResponse.make (request : MessageHandlerRequest)
    (message_statuses : List MessageStatus) : MessageHandlerResponse :=
  ⟨request, message_statuses, (message_statuses.filter (fun s => s.is_sent)).length⟩

def MessageHandlerResponse.messages_are_sent (r : MessageHandlerResponse) : Nat :=
  r._messages_are_sent

def MessageHandlerResponse.message_statuses (r : MessageHandlerResponse) : List MessageStatus :=
  r._message_statuses

/-- MessageHandler dot convert-exception: wraps a service exception
into a MessageException preserving the message text (type identity is
erased; with exceptions modelled as message strings this keeps the
payload). -/
def MessageHandler.convert_exception (exception : Option String) : Option String :=
  match exception with
  | some m => some m
  | Option.none => Option.none

/-- MessageHandler.handle: resolve the service through the factory
(propagating its failure), reject a non-service result, run
sendChecked on the batch (propagating a failed assert), then wrap the
resulting triples into MessageStatus values and build the Response.
The assert that the request is a MessageHandlerRequest holds by typing
in this embedding. -/
def MessageHandler.handle (create_service : String → Except FatalError FactoryCreated)
    (request : MessageHandlerRequest) : Except FatalError MessageHandlerResponse :=
  match create_service request._type with
  | Except.error e => Except.error e
  | Except.ok FactoryCreated.invalid =>
      Except.error (FatalError.messageHandlerException "Wrong type of service is given")
  | Except.ok (FactoryCreated.service svc) =>
      match svc.sendChecked request._batch with
      | Except.error e => Except.error e
      | Except.ok result =>
          Except.ok (MessageHandlerResponse.make request
            (result.map (fun t => MessageStatus.mk t.1 t.2.1 (MessageHandler.convert_exception t.2.2))))

example :
    WhatsAppMessageService.send ["Test0", "*Test0", "Test!1"] =
      [("Test0", "Test0", Option.none), ("Test!1", "Test1", Option.none),
       ("*Test0", "*Test0", some "Bullets in the text are not allowed")] := by decide

/-! Shared lemmas characterizing send and handle. -/

theorem filter_map_of_true {α β : Type} (f : α → β) (p : β → Bool) (l : List α)
    (h : ∀ a ∈ l, p (f a) = true) : (l.map f).filter p = l.map f := by
  induction l with
  | nil => rfl
  | cons a t ih =>
    simp only [List.map_cons, List.filter_cons, h a (List.mem_cons_self a t), if_pos]
    exact congrArg (f a :: ·) (ih (fun b hb => h b (List.mem_cons_of_mem a hb)))

theorem filter_map_of_false {α β : Type} (f : α → β) (p : β → Bool) (l : List α)
    (h : ∀ a ∈ l, p (f a) = false) : (l.map f).filter p = [] := by
  induction l with
  | nil => rfl
  | cons a t ih =>
    simp only [List.map_cons, List.filter_cons, h a (List.mem_cons_self a t)]
    exact ih (fun b hb => h b (List.mem_cons_of_mem a hb))

theorem appropriate_messages_eq (v : String → Option String) (messages : List String) :
    ((messages.map (fun x => (x, v x))).filter (fun p => p.2.isNone)).map (fun p => p.1)
      = messages.filter (fun m => (v m).isNone) := by
  induction messages with
  | nil => rfl
  | cons a t ih =>
    by_cases h : (v a).isNone <;>
      simp [List.filter_cons, h, ih]

theorem rejected_messages_eq (v : String → Option String) (messages : List String) :
    ((messages.map (fun x => (x, v x))).filter (fun p => p.2.isSome)).map (fun p => (p.1, p.1, p.2))
      = (messages.filter (fun m => (v m).isSome)).map (fun m => (m, m, v m)) := by
  induction messages with
  | nil => rfl
  | cons a t ih =>
    by_cases h : (v a).isSome <;>
      simp [List.filter_cons, h, ih]

theorem zip_with_map_self {α β : Type} (l : List α) (g : α → β) :
    l.zip (l.map g) = l.map (fun a => (a, g a)) := by
  induction l with
  | nil => rfl
  | cons a t ih => simp [ih]

/-- With a delivery primitive that succeeds on every message in order
(as all three services of the repository have), send returns the
accepted messages transformed, in original relative order, followed by
the rejected messages unchanged with their validation errors, in
original relative order. -/
theorem send_eq (svc : MessageServiceBase)
    (hprim : ∀ l, svc.sendPrim l = l.map (fun x => (x, Option.none)))
    (messages : List String) :
    svc.send messages =
      (messages.filter (fun m => (svc.mValidate m).isNone)).map
        (fun m => (m, svc.mTransform m, Option.none)) ++
      (messages.filter (fun m => (svc.mValidate m).isSome)).map
        (fun m => (m, m, svc.mValidate m)) := by
  show
    (let validated_messages := messages.map (fun x => (x, svc.mValidate x))
     let appropriate_messages :=
       (validated_messages.filter (fun p => p.2.isNone)).map (fun p => p.1)
     let send_result := svc.sendPrim (appropriate_messages.map (fun mess => svc.mTransform mess))
     let result := (appropriate_messages.zip send_result).map (fun p => (p.1, p.2.1, p.2.2))
     result ++ (validated_messages.filter (fun p => p.2.isSome)).map (fun p => (p.1, p.1, p.2))) = _
  simp only []
  rw [hprim, appropriate_messages_eq, rejected_messages_eq, List.map_map,
    Function.comp_def, zip_with_map_self, List.map_map]
  rfl

theorem create_service_sendPrim (service_type : String) (svc : MessageServiceBase)
    (hsvc : MessageServiceFactory.create_service service_type
      = Except.ok (FactoryCreated.service svc)) :
    ∀ l, svc.sendPrim l = l.map (fun x => (x, Option.none)) := by
  unfold MessageServiceFactory.create_service at hsvc
  split_ifs at hsvc <;>
    · injection hsvc with h
      injection h with h
      subst h
      intro l
      rfl

theorem sendChecked_str_batch (svc : MessageServiceBase) (messages : List String) :
    svc.sendChecked (messages.map PyVal.str) = Except.ok (svc.send messages) := by
  unfold MessageServiceBase.sendChecked
  have h1 : ((messages.map PyVal.str).filter (fun m => !m.isStr)) = [] :=
    filter_map_of_false _ _ _ (fun a _ => rfl)
  have h2 : (messages.map PyVal.str).map PyVal.getStr = messages := by
    simp [List.map_map, Function.comp_def, PyVal.getStr]
  rw [h1, h2]
  rfl

theorem convert_exception_id (e : Option String) :
    MessageHandler.convert_exception e = e := by
  cases e <;> rfl

/-- For a registered service and an all-string batch, handle succeeds
and its statuses are exactly the triples returned by send. -/
theorem handle_str_batch (service_type : String) (svc : MessageServiceBase)
    (hsvc : MessageServiceFactory.create_service service_type
      = Except.ok (FactoryCreated.service svc))
    (messages : List String) :
    MessageHandler.handle MessageServiceFactory.create_service
        { _type := service_type, _batch := messages.map PyVal.str }
      = Except.ok (MessageHandlerResponse.make
          { _type := service_type, _batch := messages.map PyVal.str }
          ((svc.send messages).map (fun t => MessageStatus.mk t.1 t.2.1 t.2.2))) := by
  have hmap : ((svc.send messages).map
        (fun t => MessageStatus.mk t.1 t.2.1 (MessageHandler.convert_exception t.2.2)))
      = ((svc.send messages).map (fun t => MessageStatus.mk t.1 t.2.1 t.2.2)) :=
    List.map_congr_left (fun t _ => by rw [convert_exception_id])
  simp only [MessageHandler.handle]
  rw [hsvc]
  simp only [sendChecked_str_batch]
  rw [hmap]

/-! Claim theorems. -/

/-- C1: for every batch of string messages dispatched through
MessageHandler.handle to a registered service, the status list places
all validation-accepted messages first, in their original submission
order, followed by all validation-rejected messages, in their original
relative order; rejects are appended after the accepted block, never
interleaved. -/
theorem C1_statuses_order (service_type : String) (svc : MessageServiceBase)
    (hsvc : MessageServiceFactory.create_service service_type
      = Except.ok (FactoryCreated.service svc))
    (messages : List String) (resp : MessageHandlerResponse)
    (hresp : MessageHandler.handle MessageServiceFactory.create_service
        { _type := service_type, _batch := messages.map PyVal.str } = Except.ok resp) :
    resp._message_statuses.map (fun s => s._original_message)
      = messages.filter (fun m => (svc.mValidate m).isNone)
        ++ messages.filter (fun m => (svc.mValidate m).isSome) := by
  rw [handle_str_batch service_type svc hsvc messages] at hresp
  injection hresp with h
  subst h
  show ((svc.send messages).map (fun t => MessageStatus.mk t.1 t.2.1 t.2.2)).map
      (fun s => s._original_message) = _
  rw [send_eq svc (create_service_sendPrim service_type svc hsvc)]
  simp [List.map_map, Function.comp_def]

theorem C1_statuses_order_witness :
    (MessageHandlerResponse.make
        { _type := SERVICE_WHATSAPP, _batch := ["Test0", "*Test0"].map PyVal.str }
        [MessageStatus.mk "Test0" "Test0" Option.none,
         MessageStatus.mk "*Test0" "*Test0"
           (some "Bullets in the text are not allowed")])._message_statuses.map
      (fun s => s._original_message)
      = ["Test0", "*Test0"].filter (fun m => (WhatsAppMessageService.mValidate m).isNone)
        ++ ["Test0", "*Test0"].filter (fun m => (WhatsAppMessageService.mValidate m).isSome) :=
  C1_statuses_order SERVICE_WHATSAPP WhatsAppMessageService rfl ["Test0", "*Test0"] _ rfl

/-- C2: for every Request with N messages accepted by the service's
validate and M rejected by it, handle returns a Response whose sent
count is N and whose status list has length exactly N plus M. -/
theorem C2_counts (service_type : String) (svc : MessageServiceBase)
    (hsvc : MessageServiceFactory.create_service service_type
      = Except.ok (FactoryCreated.service svc))
    (messages : List String) (resp : MessageHandlerResponse)
    (hresp : MessageHandler.handle MessageServiceFactory.create_service
        { _type := service_type, _batch := messages.map PyVal.str } = Except.ok resp) :
    resp._messages_are_sent = (messages.filter (fun m => (svc.mValidate m).isNone)).length ∧
    resp._message_statuses.length
      = (messages.filter (fun m => (svc.mValidate m).isNone)).length
        + (messages.filter (fun m => (svc.mValidate m).isSome)).length := by
  rw [handle_str_batch service_type svc hsvc messages] at hresp
  injection hresp with h
  subst h
  have hsend := send_eq svc (create_service_sendPrim service_type svc hsvc) messages
  have hB : ((messages.filter (fun m => (svc.mValidate m).isSome)).map
      (fun m => MessageStatus.mk m m (svc.mValidate m))).filter (fun s => s.is_sent) = [] := by
    refine filter_map_of_false _ _ _ (fun a ha => ?_)
    have hsome : (svc.mValidate a).isSome = true := by
      simpa using (List.mem_filter.mp ha).2
    show (svc.mValidate a).isNone = false
    cases hv : svc.mValidate a
    · rw [hv] at hsome
      cases hsome
    · rfl
  have hA : ((messages.filter (fun m => (svc.mValidate m).isNone)).map
      (fun m => MessageStatus.mk m (svc.mTransform m) Option.none)).filter
        (fun s => s.is_sent)
      = (messages.filter (fun m => (svc.mValidate m).isNone)).map
          (fun m => MessageStatus.mk m (svc.mTransform m) Option.none) :=
    filter_map_of_true _ _ _ (fun a _ => rfl)
  constructor
  · show (((svc.send messages).map (fun t => MessageStatus.mk t.1 t.2.1 t.2.2)).filter
        (fun s => s.is_sent)).length = _
    rw [hsend]
    simp only [List.map_append, List.map_map, Function.comp_def, List.filter_append]
    rw [hA, hB]
    simp
  · show ((svc.send messages).map (fun t => MessageStatus.mk t.1 t.2.1 t.2.2)).length = _
    rw [hsend]
    simp

theorem C2_counts_witness :
    (MessageHandlerResponse.make
        { _type := SERVICE_PUSH, _batch := ["Test0", ";Test9"].map PyVal.str }
        [MessageStatus.mk "Test0" "Test0" Option.none,
         MessageStatus.mk ";Test9" ";Test9"
           (some "Semicolumn in the text are not allowed")])._messages_are_sent
      = (["Test0", ";Test9"].filter (fun m => (PushMessageService.mValidate m).isNone)).length ∧
    (MessageHandlerResponse.make
        { _type := SERVICE_PUSH, _batch := ["Test0", ";Test9"].map PyVal.str }
        [MessageStatus.mk "Test0" "Test0" Option.none,
         MessageStatus.mk ";Test9" ";Test9"
           (some "Semicolumn in the text are not allowed")])._message_statuses.length
      = (["Test0", ";Test9"].filter (fun m => (PushMessageService.mValidate m).isNone)).length
        + (["Test0", ";Test9"].filter (fun m => (PushMessageService.mValidate m).isSome)).length :=
  C2_counts SERVICE_PUSH PushMessageService rfl ["Test0", ";Test9"] _ rfl

/-- C3: every status of a dispatched batch satisfies the round trip:
a sent status carries the service transform of its original, a
rejected status carries the original unchanged. -/
theorem C3_roundtrip (service_type : String) (svc : MessageServiceBase)
    (hsvc : MessageServiceFactory.create_service service_type
      = Except.ok (FactoryCreated.service svc))
    (messages : List String) (resp : MessageHandlerResponse)
    (hresp : MessageHandler.handle MessageServiceFactory.create_service
        { _type := service_type, _batch := messages.map PyVal.str } = Except.ok resp) :
    ∀ s ∈ resp._message_statuses,
      (s.is_sent = true → s._transformed_message = svc.mTransform s._original_message) ∧
      (s.is_sent = false → s._transformed_message = s._original_message) := by
  rw [handle_str_batch service_type svc hsvc messages] at hresp
  injection hresp with h
  subst h
  intro s hs
  have hsend := send_eq svc (create_service_sendPrim service_type svc hsvc) messages
  rw [show (MessageHandlerResponse.make
      { _type := service_type, _batch := messages.map PyVal.str }
      ((svc.send messages).map (fun t => MessageStatus.mk t.1 t.2.1 t.2.2)))._message_statuses
    = (svc.send messages).map (fun t => MessageStatus.mk t.1 t.2.1 t.2.2) from rfl, hsend] at hs
  simp only [List.map_append, List.map_map, Function.comp_def, List.mem_append,
    List.mem_map] at hs
  rcases hs with ⟨m, hm, rfl⟩ | ⟨m, hm, rfl⟩
  · refine ⟨fun _ => rfl, fun hfalse => ?_⟩
    simp [MessageStatus.is_sent] at hfalse
  · have hsome : (svc.mValidate m).isSome = true := by
      simpa using (List.mem_filter.mp hm).2
    refine ⟨fun htrue => ?_, fun _ => rfl⟩
    exfalso
    have : (svc.mValidate m).isNone = true := htrue
    cases hv : svc.mValidate m
    · rw [hv] at hsome
      cases hsome
    · rw [hv] at this
      cases this

theorem C3_roundtrip_witness :
    (MessageStatus.mk "Test*1" "Test1" Option.none)._transformed_message
      = TelegramMessageService.mTransform
          (MessageStatus.mk "Test*1" "Test1" Option.none)._original_message :=
  (C3_roundtrip SERVICE_TELEGRAM TelegramMessageService rfl ["Test*1"] _ rfl
      (MessageStatus.mk "Test*1" "Test1" Option.none) (by decide)).1 rfl

theorem filter_not_isStr_nil (l : List PyVal) (h : ∀ m ∈ l, m.isStr = true) :
    l.filter (fun m => !m.isStr) = [] := by
  induction l with
  | nil => rfl
  | cons a t ih =>
    have ha := h a (List.mem_cons_self a t)
    simp only [List.filter_cons, ha, Bool.not_true]
    simp only [if_neg (by decide : ¬ (false = true))]
    exact ih (fun b hb => h b (List.mem_cons_of_mem a hb))

/-- C4: with an all-string batch, handle fails (and produces no
Response, the Except result being an error) exactly when the factory
cannot resolve the channel id (UnknownChannel, raised as a
MessageHandlerException) or hands back an object that is not a
service (rejected by the defensive contract check); otherwise a
Response is produced. -/
theorem C4_fatal_cases (create_service : String → Except FatalError FactoryCreated)
    (request : MessageHandlerRequest)
    (hstr : ∀ m ∈ request._batch, m.isStr = true) :
    (∃ e, MessageHandler.handle create_service request = Except.error e) ↔
      ((∃ e, create_service request._type = Except.error e) ∨
        create_service request._type = Except.ok FactoryCreated.invalid) := by
  unfold MessageHandler.handle
  cases hc : create_service request._type with
  | error e =>
    constructor
    · intro _
      exact Or.inl ⟨e, rfl⟩
    · intro _
      exact ⟨e, rfl⟩
  | ok fc =>
    cases fc with
    | invalid =>
      constructor
      · intro _
        exact Or.inr rfl
      · intro _
        exact ⟨FatalError.messageHandlerException "Wrong type of service is given", rfl⟩
    | service svc =>
      have hok : svc.sendChecked request._batch
          = Except.ok (svc.send (request._batch.map PyVal.getStr)) := by
        unfold MessageServiceBase.sendChecked
        rw [filter_not_isStr_nil request._batch hstr]
        rfl
      simp only [hok]
      constructor
      · rintro ⟨e, he⟩
        cases he
      · rintro (⟨e, he⟩ | he) <;> cases he

theorem C4_fatal_cases_witness :
    ∃ e, MessageHandler.handle MessageServiceFactory.create_service
        { _type := "invalid-service123", _batch := [] } = Except.error e :=
  (C4_fatal_cases MessageServiceFactory.create_service
      { _type := "invalid-service123", _batch := [] }
      (fun m hm => absurd hm (List.not_mem_nil m))).mpr
    (Or.inl ⟨FatalError.messageHandlerException "Wrong type of service is given", rfl⟩)

/-- C5 as stated is false on the code: append_message performs no
type check, so a single builder call puts a non-string value into the
batch without any failure. -/
theorem C5_counterexample :
    ¬ (∀ m ∈ (MessageHandlerRequest.new.append_message (PyVal.int 0))._batch,
        m.isStr = true) := by
  decide

/-- C5 amended: the builder validates the channel id at set time (a
non-string service type fails the type assert, a string is stored),
but appended messages are not type-checked at build time:
append_message stores any value unchanged, and the string-only check
only happens later, in send. -/
theorem C5_amended_builder (r : MessageHandlerRequest) (s : String) (v : PyVal)
    (hv : v.isStr = false) :
    r.set_service_type (PyVal.str s) = Except.ok { r with _type := s } ∧
    r.set_service_type v = Except.error FatalError.assertionError ∧
    (r.append_message v)._batch = r._batch ++ [v] := by
  refine ⟨rfl, ?_, rfl⟩
  cases v with
  | str s2 => exact Bool.noConfusion hv
  | int n => rfl
  | none => rfl
  | dict => rfl
  | list => rfl

theorem C5_amended_builder_witness :
    MessageHandlerRequest.new.set_service_type (PyVal.str "telegram")
        = Except.ok { MessageHandlerRequest.new with _type := "telegram" } ∧
    MessageHandlerRequest.new.set_service_type (PyVal.int 0)
        = Except.error FatalError.assertionError ∧
    (MessageHandlerRequest.new.append_message (PyVal.int 0))._batch
        = MessageHandlerRequest.new._batch ++ [PyVal.int 0] :=
  C5_amended_builder MessageHandlerRequest.new "telegram" (PyVal.int 0) rfl

/-- C6: send requires every element of the batch to be a genuine
string: for a registered channel (so that control reaches send), a
batch with a non-string element makes the whole call abort with the
assertion failure, producing no Response at all, while under the
all-strings precondition this failure branch is unreachable and a
Response is produced. -/
theorem C6_precondition (request : MessageHandlerRequest) (svc : MessageServiceBase)
    (hreg : MessageServiceFactory.create_service request._type
      = Except.ok (FactoryCreated.service svc)) :
    ((∃ m ∈ request._batch, m.isStr = false) →
      MessageHandler.handle MessageServiceFactory.create_service request
        = Except.error FatalError.assertionError) ∧
    ((∀ m ∈ request._batch, m.isStr = true) →
      ∃ resp, MessageHandler.handle MessageServiceFactory.create_service request
        = Except.ok resp) := by
  constructor
  · rintro ⟨m, hm, hmfalse⟩
    have hchk : svc.sendChecked request._batch = Except.error FatalError.assertionError := by
      unfold MessageServiceBase.sendChecked
      rw [if_neg]
      intro hlen
      have hmem : m ∈ request._batch.filter (fun m => !m.isStr) :=
        List.mem_filter.mpr ⟨hm, by rw [hmfalse]; rfl⟩
      rw [List.length_eq_zero] at hlen
      rw [hlen] at hmem
      exact absurd hmem (List.not_mem_nil m)
    unfold MessageHandler.handle
    rw [hreg]
    simp only [hchk]
  · intro hstr
    have hchk : svc.sendChecked request._batch
        = Except.ok (svc.send (request._batch.map PyVal.getStr)) := by
      unfold MessageServiceBase.sendChecked
      rw [filter_not_isStr_nil request._batch hstr]
      rfl
    unfold MessageHandler.handle
    rw [hreg]
    simp only [hchk]
    exact ⟨_, rfl⟩

theorem C6_precondition_witness :
    MessageHandler.handle MessageServiceFactory.create_service
        { _type := "push", _batch := [PyVal.int 0] }
      = Except.error FatalError.assertionError :=
  (C6_precondition { _type := "push", _batch := [PyVal.int 0] } PushMessageService rfl).1
    ⟨PyVal.int 0, List.mem_cons_self _ _, rfl⟩

/-- C7: the delivery primitive of each of the three services returns
exactly one outcome per input message in the same order (the message
components of the outcomes are exactly the input list), and reports
success, no delivery error, for every message. -/
theorem C7_deliver (svc : MessageServiceBase)
    (h : svc = TelegramMessageService ∨ svc = WhatsAppMessageService
      ∨ svc = PushMessageService)
    (messages : List String) :
    (svc.sendPrim messages).map (fun p => p.1) = messages ∧
    ∀ p ∈ svc.sendPrim messages, p.2 = Option.none := by
  have key : ∀ l : List String,
      ((l.map (fun x => (x, (Option.none : Option String)))).map (fun p => p.1)) = l := by
    intro l
    induction l with
    | nil => rfl
    | cons a t ih => simp [ih]
  have key2 : ∀ l : List String,
      ∀ p ∈ l.map (fun x => (x, (Option.none : Option String))), p.2 = Option.none := by
    intro l p hp
    obtain ⟨x, _, rfl⟩ := List.mem_map.mp hp
    rfl
  rcases h with rfl | rfl | rfl <;> exact ⟨key messages, key2 messages⟩

theorem C7_deliver_witness :
    (TelegramMessageService.sendPrim ["Test0"]).map (fun p => p.1) = ["Test0"] ∧
    ∀ p ∈ TelegramMessageService.sendPrim ["Test0"], p.2 = Option.none :=
  C7_deliver TelegramMessageService (Or.inl rfl) ["Test0"]

/-- C8: dispatching the batch Test0, star-Test0, Test-bang-1 to the
WhatsApp service (marker is the exclamation mark, reject rule is
containment of a bullet) yields Test0 sent with transformed Test0,
Test-bang-1 sent with transformed Test1, and star-Test0 appended last,
rejected with the validation error; the sent count is 2. -/
theorem C8_whatsapp_scenario :
    ∃ resp, MessageHandler.handle MessageServiceFactory.create_service
        { _type := SERVICE_WHATSAPP,
          _batch := [PyVal.str "Test0", PyVal.str "*Test0", PyVal.str "Test!1"] }
      = Except.ok resp ∧
      resp._messages_are_sent = 2 ∧
      resp._message_statuses.map
          (fun s => (s._original_message, s._transformed_message, s._error))
        = [("Test0", "Test0", Option.none), ("Test!1", "Test1", Option.none),
           ("*Test0", "*Test0", some "Bullets in the text are not allowed")] := by
  refine ⟨_, rfl, ?_, ?_⟩ <;> decide

/-- C9: two dispatches of equivalent Requests (same channel id, same
ordered batch) through the stateless factory yield equivalent
Responses: the same sent count and the same statuses, hence the same
per-message original, transformed and error outcomes in the same
order. -/
theorem C9_idempotent (r1 r2 : MessageHandlerRequest)
    (ht : r1._type = r2._type) (hb : r1._batch = r2._batch)
    (resp1 resp2 : MessageHandlerResponse)
    (h1 : MessageHandler.handle MessageServiceFactory.create_service r1 = Except.ok resp1)
    (h2 : MessageHandler.handle MessageServiceFactory.create_service r2 = Except.ok resp2) :
    resp1._messages_are_sent = resp2._messages_are_sent ∧
    resp1._message_statuses = resp2._message_statuses := by
  have hr : r1 = r2 := by
    cases r1
    cases r2
    simp_all
  subst hr
  rw [h1] at h2
  injection h2 with h
  subst h
  exact ⟨rfl, rfl⟩

theorem C9_idempotent_witness :
    (MessageHandlerResponse.make
        { _type := SERVICE_TELEGRAM, _batch := [PyVal.str "Test*1"] }
        [MessageStatus.mk "Test*1" "Test1" Option.none])._messages_are_sent
      = (MessageHandlerResponse.make
          { _type := SERVICE_TELEGRAM, _batch := [PyVal.str "Test*1"] }
          [MessageStatus.mk "Test*1" "Test1" Option.none])._messages_are_sent ∧
    (MessageHandlerResponse.make
        { _type := SERVICE_TELEGRAM, _batch := [PyVal.str "Test*1"] }
        [MessageStatus.mk "Test*1" "Test1" Option.none])._message_statuses
      = (MessageHandlerResponse.make
          { _type := SERVICE_TELEGRAM, _batch := [PyVal.str "Test*1"] }
          [MessageStatus.mk "Test*1" "Test1" Option.none])._message_statuses :=
  C9_idempotent
    { _type := SERVICE_TELEGRAM, _batch := [PyVal.str "Test*1"] }
    { _type := SERVICE_TELEGRAM, _batch := [PyVal.str "Test*1"] }
    rfl rfl _ _ rfl rfl

/-- C10: dispatching an empty batch to a registered channel succeeds
and returns a Response with an empty status list and a sent count of
zero; the empty batch is not an error at the public interface. -/
theorem C10_empty_batch (service_type : String) (svc : MessageServiceBase)
    (hsvc : MessageServiceFactory.create_service service_type
      = Except.ok (FactoryCreated.service svc)) :
    ∃ resp, MessageHandler.handle MessageServiceFactory.create_service
        { _type := service_type, _batch := [] } = Except.ok resp ∧
      resp._message_statuses = [] ∧ resp._messages_are_sent = 0 := by
  refine ⟨MessageHandlerResponse.make { _type := service_type, _batch := [] } [],
    ?_, rfl, rfl⟩
  have hsend : svc.send [] = ([] : List (String × String × Option String)) := rfl
  simpa [hsend] using handle_str_batch service_type svc hsvc []

theorem C10_empty_batch_witness :
    ∃ resp, MessageHandler.handle MessageServiceFactory.create_service
        { _type := SERVICE_TELEGRAM, _batch := [] } = Except.ok resp ∧
      resp._message_statuses = [] ∧ resp._messages_are_sent = 0 :=
  C10_empty_batch SERVICE_TELEGRAM TelegramMessageService rfl
